import Mathlib

/-!
Verification of the lazypp task-cache core against its specification.

The development shallowly embeds the fingerprint / cache / retry protocol of
`src/lazypp/task.py` and the artifact operations of `src/lazypp/file_objects.py`.
Python byte strings are `List Nat` (each element a byte value), machine words
are `Nat` reduced modulo `2 ^ 32` or `2 ^ 64` where the source overflows, and
fallible code returns `Except` (the error constructors name the Python
exceptions the source raises).  The MD5 digest used by `File._md5_hash` and
`Directory._md5_hash` (`hashlib.md5`) is implemented in full (RFC 1321) so
that digests of concrete byte streams evaluate inside Lean.
-/

namespace LazyPP

set_option maxRecDepth 100000

/-! ### MD5 (hashlib.md5): RFC 1321, over byte lists -/

/-- Reduce to a 32-bit word, as the C implementation's `uint32_t` wrap-around. -/
def m32 (x : Nat) : Nat := x % 4294967296

/-- 32-bit left rotation (`x` is assumed `< 2 ^ 32`; callers pass reduced words). -/
def rotl32 (x n : Nat) : Nat := m32 ((x <<< n) ||| (x >>> (32 - n)))

/-- 32-bit bitwise complement. -/
def compl32 (x : Nat) : Nat := 4294967295 ^^^ x

/-- MD5 round constants `K[i] = floor(abs(sin(i + 1)) * 2^32)`. -/
def md5K : List Nat :=
  [3614090360, 3905402710, 606105819, 3250441966, 4118548399, 1200080426,
   2821735955, 4249261313, 1770035416, 2336552879, 4294925233, 2304563134,
   1804603682, 4254626195, 2792965006, 1236535329, 4129170786, 3225465664,
   643717713, 3921069994, 3593408605, 38016083, 3634488961, 3889429448,
   568446438, 3275163606, 4107603335, 1163531501, 2850285829, 4243563512,
   1735328473, 2368359562, 4294588738, 2272392833, 1839030562, 4259657740,
   2763975236, 1272893353, 4139469664, 3200236656, 681279174, 3936430074,
   3572445317, 76029189, 3654602809, 3873151461, 530742520, 3299628645,
   4096336452, 1126891415, 2878612391, 4237533241, 1700485571, 2399980690,
   4293915773, 2240044497, 1873313359, 4264355552, 2734768916, 1309151649,
   4149444226, 3174756917, 718787259, 3951481745]

/-- MD5 per-round left-rotation amounts. -/
def md5S : List Nat :=
  [7, 12, 17, 22, 7, 12, 17, 22, 7, 12, 17, 22, 7, 12, 17, 22,
   5, 9, 14, 20, 5, 9, 14, 20, 5, 9, 14, 20, 5, 9, 14, 20,
   4, 11, 16, 23, 4, 11, 16, 23, 4, 11, 16, 23, 4, 11, 16, 23,
   6, 10, 15, 21, 6, 10, 15, 21, 6, 10, 15, 21, 6, 10, 15, 21]

/-- One MD5 round: state `(a, b, c, d)`, message words `M`, round index `i`. -/
def md5Round (M : List Nat) (st : Nat × Nat × Nat × Nat) (i : Nat) :
    Nat × Nat × Nat × Nat :=
  let a := st.1
  let b := st.2.1
  let c := st.2.2.1
  let d := st.2.2.2
  let f :=
    if i < 16 then (b &&& c) ||| (compl32 b &&& d)
    else if i < 32 then (d &&& b) ||| (compl32 d &&& c)
    else if i < 48 then b ^^^ c ^^^ d
    else c ^^^ (b ||| compl32 d)
  let g :=
    if i < 16 then i
    else if i < 32 then (5 * i + 1) % 16
    else if i < 48 then (3 * i + 5) % 16
    else (7 * i) % 16
  let tmp := m32 (a + f + md5K.getD i 0 + M.getD g 0)
  let b2 := m32 (b + rotl32 tmp (md5S.getD i 0))
  (d, b2, b, c)

/-- Little-endian 32-bit word from (up to) four bytes. -/
def leWord : List Nat → Nat
  | [a, b, c, d] => a + 256 * b + 65536 * c + 16777216 * d
  | _ => 0

/-- Chunking loop, structurally recursive on a fuel bound (each step consumes
at least one byte when `n ≥ 1`, so fuel `= length` is enough). -/
def byteChunksGo (n : Nat) : Nat → List Nat → List (List Nat)
  | 0, _ => []
  | _, [] => []
  | fuel + 1, b :: bs => ((b :: bs).take n) :: byteChunksGo n fuel ((b :: bs).drop n)

/-- Split a byte list into chunks of `n` bytes (`n ≥ 1`), as repeated `read(n)`
until the empty read: `iter(lambda: f.read(n), b"")`. -/
def byteChunks (n : Nat) (bs : List Nat) : List (List Nat) :=
  byteChunksGo n bs.length bs

/-- Process one 64-byte block into the running MD5 state. -/
def md5Block (st : Nat × Nat × Nat × Nat) (block : List Nat) :
    Nat × Nat × Nat × Nat :=
  let M := (byteChunks 4 block).map leWord
  let r := (List.range 64).foldl (md5Round M) st
  (m32 (st.1 + r.1), m32 (st.2.1 + r.2.1), m32 (st.2.2.1 + r.2.2.1),
   m32 (st.2.2.2 + r.2.2.2))

/-- Eight-byte little-endian encoding of the bit length. -/
def leBytes8 (n : Nat) : List Nat :=
  [n % 256, n / 256 % 256, n / 65536 % 256, n / 16777216 % 256,
   n / 4294967296 % 256, n / 1099511627776 % 256,
   n / 281474976710656 % 256, n / 72057594037927936 % 256]

/-- Four-byte little-endian encoding of a 32-bit word. -/
def leBytes4 (n : Nat) : List Nat :=
  [n % 256, n / 256 % 256, n / 65536 % 256, n / 16777216 % 256]

/-- MD5 padding: a `0x80` byte, zeros to 56 mod 64, then the 64-bit bit length. -/
def md5Pad (msg : List Nat) : List Nat :=
  msg ++ [128] ++ List.replicate ((119 - msg.length % 64) % 64) 0 ++
    leBytes8 (8 * msg.length)

/-- The 16-byte MD5 digest of a byte list. -/
def md5Bytes (msg : List Nat) : List Nat :=
  let st := (byteChunks 64 (md5Pad msg)).foldl md5Block
    (1732584193, 4023233417, 2562383102, 271733878)
  leBytes4 st.1 ++ leBytes4 st.2.1 ++ leBytes4 st.2.2.1 ++ leBytes4 st.2.2.2

/-- Lowercase hexadecimal digit. -/
def hexDigit (n : Nat) : Char := ("0123456789abcdef".toList).getD n '0'

/-- Two-digit lowercase hexadecimal form of a byte. -/
def hexByte (n : Nat) : String :=
  String.mk [hexDigit (n / 16), hexDigit (n % 16)]

/-- `hexdigest()`: the digest as a 32-character lowercase hex string. -/
def md5Hex (msg : List Nat) : String :=
  String.join ((md5Bytes msg).map hexByte)

example : md5Hex [] = "d41d8cd98f00b204e9800998ecf8427e" := by decide

example : md5Hex [97, 98, 99] = "900150983cd24fb0d6963f7d28e17f72" := by decide

/-! ### file_objects.py: escape check and artifact construction -/

/-- The loop body of `_is_outside_base`: running depth after one component. -/
def depthStep (d : Int) (p : String) : Int :=
  if p = ".." then d - 1 else if p = "." then d else d + 1

/-- `_is_outside_base`'s loop from a running depth: after each component the
depth is updated and the function returns `True` as soon as it is negative. -/
def isOutsideBaseAux (d : Int) : List String → Bool
  | [] => false
  | p :: ps =>
    let d2 := depthStep d p
    if d2 < 0 then true else isOutsideBaseAux d2 ps

/-- `_is_outside_base(relative_path)`: scan `relative_path.parts` accumulating
depth (`..` is −1, `.` is 0, any other component +1), rejecting when the
running depth ever becomes negative. -/
def isOutsideBase (parts : List String) : Bool := isOutsideBaseAux 0 parts

/-- Net depth of a component list: the same fold, without the early return. -/
def partsDepth (parts : List String) : Int := parts.foldl depthStep 0

/-- A `File`/`Directory` object's fields after `BaseEntry.__init__`: paths are
kept as their `pathlib` component lists (`Path(...).parts`); `Path.resolve()`
on the source path is identity here since the embedding works with the given
components. -/
structure EntryObj where
  srcPath : List String
  destPath : List String
  copyFlag : Bool
deriving DecidableEq, Repr

/-- `BaseEntry.__init__(path, copy=..., dest=...)`: `dest` given forces the
copy flag; the destination path defaults to `path`; construction fails with
`ValueError("File is outside base directory")` when `_is_outside_base` rejects
the destination. -/
def baseEntryInit (path : List String) (copyArg : Bool) (dest : Option (List String)) :
    Except String EntryObj :=
  let copyFlag := if dest.isSome then true else copyArg
  let destPath := match dest with
    | some d => d
    | none => path
  if isOutsideBase destPath then Except.error ("File is outside base directory")
  else Except.ok { srcPath := path, destPath := destPath, copyFlag := copyFlag }

/-- `File._md5_hash().hexdigest()`: the file's bytes are read in 4096-byte
chunks, each fed to the running MD5 state; the digest of the chunk sequence is
the digest of the concatenated bytes. -/
def fileMd5Hex (content : List Nat) : String :=
  md5Hex (byteChunks 4096 content).flatten

/-- A filesystem subtree as `os.walk` observes it: each directory's children
are listed in the order the operating system enumerates them (`os.scandir`
order), which is not sorted. -/
inductive FsNode where
  | file (name : String) (content : List Nat)
  | dir (name : String) (children : List FsNode)

/-- The contents of the regular files directly in one directory, in
enumeration order (the `filenames` component of a walk tuple). -/
def levelFileContents : List FsNode → List (List Nat)
  | [] => []
  | FsNode.file _ c :: rest => c :: levelFileContents rest
  | FsNode.dir _ _ :: rest => levelFileContents rest

mutual
/-- `os.walk(src)` content stream, top-down: for each yielded `(root, dirs,
files)` tuple the files of that directory in enumeration order, the root's
tuple first, then the subdirectories' in enumeration order. Result: the list
of per-directory lists of file contents, in walk order. -/
def osWalk (children : List FsNode) : List (List (List Nat)) :=
  levelFileContents children :: osWalkSubdirs children

/-- The walk of every subdirectory at one level, in enumeration order. -/
def osWalkSubdirs : List FsNode → List (List (List Nat))
  | [] => []
  | FsNode.file _ _ :: rest => osWalkSubdirs rest
  | FsNode.dir _ cs :: rest => osWalk cs ++ osWalkSubdirs rest
end

/-- `Directory._md5_hash().hexdigest()`: one MD5 state updated with every
regular file's bytes (each file read in 4096-byte chunks) over
`os.walk(self._src_path)`, files in walk order. -/
def dirMd5Hex (children : List FsNode) : String :=
  md5Hex ((osWalk children).flatten.map (fun c => (byteChunks 4096 c).flatten)).flatten

/-- All regular files under a subtree as (relative path, content) pairs, used
only to state the specification's claimed ordering. -/
def lexFilesAux (pathAcc : String) : List FsNode → List (String × List Nat)
  | [] => []
  | FsNode.file n c :: rest => (pathAcc ++ n, c) :: lexFilesAux pathAcc rest
  | FsNode.dir n cs :: rest =>
      lexFilesAux (pathAcc ++ n ++ "/") cs ++ lexFilesAux pathAcc rest

/-- Modelled from the specification's words for comparison (`content hash …
visited in lexicographic order by relative path`): the digest of the files'
bytes concatenated in lexicographic order of their relative paths. -/
def specLexDirHash (children : List FsNode) : String :=
  md5Hex (((lexFilesAux ("") children).insertionSort
    (fun a b => a.1 ≤ b.1)).map (fun p => p.2)).flatten

/-! ### task.py: Python values, `json.dumps`, `_dump_input`, `_calculate_hash` -/

/-- Exceptions the embedded code can raise. -/
inductive PyErr where
  /-- `ValueError("Input should be a dictionary with string keys …")`. -/
  | invalidInput
  /-- `ValueError("Output should be a dictionary with string keys")`. -/
  | invalidOutput
  /-- `AttributeError`: `_dump_input` calls `entry._xxh128_hash()`, and neither
  `BaseEntry` nor `File` nor `Directory` defines a method of that name
  (`file_objects.py` defines only `_md5_hash`). -/
  | attributeError
  /-- `ValueError("Hash is not calculated. Run the task to calculate hash")`. -/
  | hashNotCalculated
  /-- `TypeError` from `json.dumps` on a non-serializable object. -/
  | typeError
  /-- `RuntimeError("Task failed after 3 retries")`. -/
  | retriesExhausted
  /-- An exception other than `RetryTask` escaping the task body. -/
  | bodyException
deriving DecidableEq, Repr

/-- A Python dictionary key: a string, or (standing for every non-string
hashable key) an integer. -/
inductive PyKey where
  | str (s : String)
  | int (n : Int)
deriving DecidableEq, Repr

/-- A Python value as the input/output trees of `task.py` contain them:
JSON-style scalars, lists, dictionaries, plus the two node kinds the dump
replaces — artifacts (`BaseEntry` instances) and tasks (`BaseTask` instances,
carrying their `_hash` field, `none` when the hash is not yet computed). -/
inductive PyVal where
  | str (s : String)
  | int (n : Int)
  | bool (b : Bool)
  | none
  | list (xs : List PyVal)
  | dict (kvs : List (PyKey × PyVal))
  | entry (e : EntryObj)
  | task (h : Option String)

/-- Four-digit lowercase hexadecimal form (for `\uXXXX` escapes). -/
def hex4 (n : Nat) : String :=
  String.mk [hexDigit (n / 4096 % 16), hexDigit (n / 256 % 16),
    hexDigit (n / 16 % 16), hexDigit (n % 16)]

/-- `json.encoder.py_encode_basestring_ascii`, one character: `\` and `"` and
the named control escapes, `\uXXXX` (surrogate pairs above the BMP) for every
character outside `0x20`–`0x7e`. -/
def escChar (c : Char) : String :=
  let n := c.toNat
  if c = '"' then "\\\""
  else if c = '\\' then "\\\\"
  else if n = 10 then "\\n"
  else if n = 13 then "\\r"
  else if n = 9 then "\\t"
  else if n = 8 then "\\b"
  else if n = 12 then "\\f"
  else if n < 32 ∨ n > 126 then
    if n < 65536 then "\\u" ++ hex4 n
    else "\\u" ++ hex4 (55296 + (n - 65536) / 1024) ++
         "\\u" ++ hex4 (56320 + (n - 65536) % 1024)
  else String.mk [c]

/-- A JSON string literal (`ensure_ascii=True`, the default). -/
def encStr (s : String) : String :=
  "\"" ++ String.join (s.toList.map escChar) ++ "\""

/-- A dictionary key as `json.dumps` writes it: strings escaped, integer keys
converted with `int.__repr__` and quoted. -/
def pyKeyStr : PyKey → String
  | PyKey.str s => encStr s
  | PyKey.int n => "\"" ++ toString n ++ "\""

/-- `s` repeated `n` times. -/
def repeatStr (s : String) (n : Nat) : String :=
  String.join (List.replicate n s)

/-- The newline-plus-indent `json.dumps` inserts at nesting level `lvl`:
nothing when `indent` is `None` (`fmt = none`), else a newline and the indent
string repeated. `_dump_input` always passes a non-`None` indent (`False`
becomes the empty indent string, `4` four spaces). -/
def nlInd (fmt : Option String) (lvl : Nat) : String :=
  match fmt with
  | Option.none => ""
  | Option.some ind => "\n" ++ repeatStr ind lvl

/-- The item separator at nesting level `lvl`: `", "` when `indent` is `None`,
else `","` followed by the newline-plus-indent. -/
def itemSep (fmt : Option String) (lvl : Nat) : String :=
  (match fmt with
   | Option.none => ", "
   | Option.some _ => ",") ++ nlInd fmt lvl

mutual
/-- `json.dumps(v, indent=…)` with default separators and `ensure_ascii`,
`sort_keys=False` (the default: dictionary entries keep insertion order).
`BaseEntry` and `BaseTask` objects are not JSON-serializable (`TypeError`). -/
def jsonVal (fmt : Option String) (lvl : Nat) : PyVal → Except PyErr String
  | PyVal.str s => Except.ok (encStr s)
  | PyVal.int n => Except.ok (toString n)
  | PyVal.bool b => Except.ok (cond b ("true") ("false"))
  | PyVal.none => Except.ok ("null")
  | PyVal.list [] => Except.ok ("[]")
  | PyVal.list (x :: xs) =>
      match jsonItems fmt (lvl + 1) (x :: xs) with
      | Except.error e => Except.error e
      | Except.ok items =>
          Except.ok ("[" ++ nlInd fmt (lvl + 1) ++
            String.intercalate (itemSep fmt (lvl + 1)) items ++ nlInd fmt lvl ++ "]")
  | PyVal.dict [] => Except.ok ("\x7b\x7d")
  | PyVal.dict (p :: ps) =>
      match jsonEntries fmt (lvl + 1) (p :: ps) with
      | Except.error e => Except.error e
      | Except.ok items =>
          Except.ok ("\x7b" ++ nlInd fmt (lvl + 1) ++
            String.intercalate (itemSep fmt (lvl + 1)) items ++ nlInd fmt lvl ++ "\x7d")
  | PyVal.entry _ => Except.error PyErr.typeError
  | PyVal.task _ => Except.error PyErr.typeError

/-- The serialized elements of a list. -/
def jsonItems (fmt : Option String) (lvl : Nat) : List PyVal → Except PyErr (List String)
  | [] => Except.ok []
  | x :: xs =>
      match jsonVal fmt lvl x with
      | Except.error e => Except.error e
      | Except.ok s =>
          match jsonItems fmt lvl xs with
          | Except.error e => Except.error e
          | Except.ok rest => Except.ok (s :: rest)

/-- The serialized `"key": value` entries of a dictionary, in insertion order. -/
def jsonEntries (fmt : Option String) (lvl : Nat) :
    List (PyKey × PyVal) → Except PyErr (List String)
  | [] => Except.ok []
  | (k, v) :: kvs =>
      match jsonVal fmt lvl v with
      | Except.error e => Except.error e
      | Except.ok s =>
          match jsonEntries fmt lvl kvs with
          | Except.error e => Except.error e
          | Except.ok rest => Except.ok ((pyKeyStr k ++ ": " ++ s) :: rest)
end

/-- Whether a key is a Python `str` (`isinstance(key, str)`). -/
def isStrKey : PyKey → Bool
  | PyKey.str _ => true
  | PyKey.int _ => false

/-- `_is_valid_input`: `None`, or a dictionary whose keys are all strings. -/
def isValidInput : PyVal → Bool
  | PyVal.none => true
  | PyVal.dict kvs => kvs.all (fun p => isStrKey p.1)
  | _ => false

/-- `_is_valid_output`: textually the same check as `_is_valid_input`. -/
def isValidOutput : PyVal → Bool
  | PyVal.none => true
  | PyVal.dict kvs => kvs.all (fun p => isStrKey p.1)
  | _ => false

mutual
/-- Whether a value contains a `BaseEntry` node at a position
`_call_func_on_specific_class` visits (descending through mappings and
non-string sequences).  The entry-replacement pass applies
`entry._xxh128_hash()` to every such node, so the pass raises
`AttributeError` exactly when one exists. -/
def hasEntry : PyVal → Bool
  | PyVal.entry _ => true
  | PyVal.list xs => hasEntryList xs
  | PyVal.dict kvs => hasEntryDict kvs
  | _ => false

/-- `hasEntry` over a list's elements. -/
def hasEntryList : List PyVal → Bool
  | [] => false
  | x :: xs => hasEntry x || hasEntryList xs

/-- `hasEntry` over a dictionary's values. -/
def hasEntryDict : List (PyKey × PyVal) → Bool
  | [] => false
  | (_, v) :: kvs => hasEntry v || hasEntryDict kvs
end

mutual
/-- The `BaseTask` pass of `_dump_input`: every task node is replaced by
`task.hash` (its already-computed fingerprint string); the `hash` property
raises `ValueError` when `_hash` is still `None`. -/
def replTasks : PyVal → Except PyErr PyVal
  | PyVal.task (Option.some h) => Except.ok (PyVal.str h)
  | PyVal.task Option.none => Except.error PyErr.hashNotCalculated
  | PyVal.list xs =>
      match replTasksList xs with
      | Except.error e => Except.error e
      | Except.ok ys => Except.ok (PyVal.list ys)
  | PyVal.dict kvs =>
      match replTasksDict kvs with
      | Except.error e => Except.error e
      | Except.ok kvs2 => Except.ok (PyVal.dict kvs2)
  | v => Except.ok v

/-- `replTasks` over a list's elements. -/
def replTasksList : List PyVal → Except PyErr (List PyVal)
  | [] => Except.ok []
  | x :: xs =>
      match replTasks x with
      | Except.error e => Except.error e
      | Except.ok y =>
          match replTasksList xs with
          | Except.error e => Except.error e
          | Except.ok ys => Except.ok (y :: ys)

/-- `replTasks` over a dictionary's values. -/
def replTasksDict : List (PyKey × PyVal) → Except PyErr (List (PyKey × PyVal))
  | [] => Except.ok []
  | (k, v) :: kvs =>
      match replTasks v with
      | Except.error e => Except.error e
      | Except.ok w =>
          match replTasksDict kvs with
          | Except.error e => Except.error e
          | Except.ok rest => Except.ok ((k, w) :: rest)
end

/-- Python dictionary assignment `d[k] = v`: an existing key keeps its
position and gets the new value; a new key is appended last. -/
def dictSet (kvs : List (PyKey × PyVal)) (k : PyKey) (v : PyVal) :
    List (PyKey × PyVal) :=
  if kvs.any (fun p => p.1 = k) then
    kvs.map (fun p => if p.1 = k then (k, v) else p)
  else kvs ++ [(k, v)]

/-- The fields of `self.task.__code__` that `_dump_input` serializes: two
tasks have equal bodies exactly when these agree. -/
structure SourceCode where
  coCode : String
  coConsts : List PyVal
  coVarnames : List String
  coNames : List String

/-- The `source_code` dictionary built by `_dump_input`, in its key order. -/
def sourceCodeVal (s : SourceCode) : PyVal :=
  PyVal.dict
    [(PyKey.str ("co_code"), PyVal.str s.coCode),
     (PyKey.str ("co_consts"), PyVal.list s.coConsts),
     (PyKey.str ("co_varnames"), PyVal.list (s.coVarnames.map PyVal.str)),
     (PyKey.str ("co_names"), PyVal.list (s.coNames.map PyVal.str))]

/-- The key `_dump_input` adds to the input before dumping. -/
def srcKey : PyKey := PyKey.str ("__lazypp_task_source__")

/-- `BaseTask._dump_input(indent)`: validate the input; for `None` input dump
`{"__lazypp_task_source__": source_code}` compactly (that call passes no
`indent`); otherwise set the source key on a copy of the input dictionary,
run the `BaseEntry` replacement pass (which raises `AttributeError` whenever
an artifact is present, since `_xxh128_hash` is not defined), run the
`BaseTask` replacement pass, and serialize with `json.dumps(ret,
indent=indent)`.  `ind` is the indent string `' ' * indent` (the default
`indent=False` gives `""`, `indent=4` gives four spaces); keys are not
sorted. -/
def dumpInput (src : SourceCode) (input : PyVal) (ind : String) : Except PyErr String :=
  if ¬ isValidInput input then Except.error PyErr.invalidInput
  else match input with
  | PyVal.none => jsonVal Option.none 0 (PyVal.dict [(srcKey, sourceCodeVal src)])
  | PyVal.dict kvs =>
      let ret := dictSet kvs srcKey (sourceCodeVal src)
      if hasEntryDict ret then Except.error PyErr.attributeError
      else
        match replTasksDict ret with
        | Except.error e => Except.error e
        | Except.ok kvs2 => jsonVal (Option.some ind) 0 (PyVal.dict kvs2)
  | _ => Except.error PyErr.invalidInput

/-- `BaseTask._calculate_hash()`:
`f"{xxh128(self._dump_input().encode()).hexdigest()}_{self.name}"`.
`xxh128hex` stands for the external xxhash library's
`xxh128(bytes).hexdigest()` — a fixed pure function of the dumped text,
abstracted as a parameter because that library is not part of this
repository. -/
def calculateHash (xxh128hex : String → String) (src : SourceCode)
    (input : PyVal) (name : String) : Except PyErr String :=
  match dumpInput src input ("") with
  | Except.error e => Except.error e
  | Except.ok s => Except.ok (xxh128hex s ++ "_" ++ name)

/-! ### task.py: cache store (`_cache_output`) and call protocol (`__call__`) -/

/-- The on-disk state of one cache entry `<cache_dir>/<hash>/`. -/
structure CacheEntry where
  /-- `output.pkl`: `some v` when the file exists and unpickles to `v`
  (`v` may be Python `None`, i.e. `PyVal.none`). -/
  outputPkl : Option PyVal := Option.none
  /-- `input.json`'s text, when the file exists. -/
  inputJson : Option String := Option.none
  /-- The artifacts archived into the entry, in archive order. -/
  blobs : List EntryObj := []

/-- One filesystem operation of `_cache_output`, in program order. -/
inductive CacheOp where
  /-- `os.remove(cache_dir/hash/"output.pkl")` of a stale marker. -/
  | removeOutputPkl
  /-- `os.makedirs(cache_dir/hash, exist_ok=True)`. -/
  | makeEntryDir
  /-- `entry._cache(work_dir, cache_dir/hash)`: archive one artifact. -/
  | archiveEntry (e : EntryObj)
  /-- Write `input.json`. -/
  | writeInputJson (s : String)
  /-- Write `output.pkl` — the last write, the commit marker. -/
  | writeOutputPkl (v : PyVal)

mutual
/-- The `BaseEntry` nodes reachable from an output value, in the order
`_call_func_on_specific_class` visits them (mappings in insertion order,
then-nested sequences element-wise, depth-first). -/
def collectEntries : PyVal → List EntryObj
  | PyVal.entry e => [e]
  | PyVal.list xs => collectEntriesList xs
  | PyVal.dict kvs => collectEntriesDict kvs
  | _ => []

/-- `collectEntries` over a list's elements. -/
def collectEntriesList : List PyVal → List EntryObj
  | [] => []
  | x :: xs => collectEntries x ++ collectEntriesList xs

/-- `collectEntries` over a dictionary's values. -/
def collectEntriesDict : List (PyKey × PyVal) → List EntryObj
  | [] => []
  | (_, v) :: kvs => collectEntries v ++ collectEntriesDict kvs
end

/-- `BaseTask._cache_output()` on the entry state `c`: validate the output
(raising `ValueError` before touching any file when it is neither `None` nor
a string-keyed dictionary); remove a stale `output.pkl` if present; create
the entry directory; archive every artifact reachable from the output; write
`input.json` (`self._dump_input(indent=4)` — when that dump raises, the file
was already opened for writing, so it is left truncated empty and the
exception propagates with no `output.pkl` written); finally write
`output.pkl`.  Returns the new entry state, the operations in program order,
and the exception, if one was raised. -/
def cacheOutput (src : SourceCode) (input : PyVal) (output : PyVal)
    (c : CacheEntry) : CacheEntry × List CacheOp × Option PyErr :=
  if ¬ isValidOutput output then (c, [], Option.some PyErr.invalidOutput)
  else
    let removed := c.outputPkl.isSome
    let c1 : CacheEntry := { c with outputPkl := Option.none }
    let t1 : List CacheOp :=
      (if removed then [CacheOp.removeOutputPkl] else []) ++ [CacheOp.makeEntryDir]
    let es := collectEntries output
    let c2 : CacheEntry := { c1 with blobs := c1.blobs ++ es }
    let t2 := t1 ++ es.map CacheOp.archiveEntry
    match dumpInput src input ("    ") with
    | Except.error e =>
        ({ c2 with inputJson := Option.some ("") },
         t2 ++ [CacheOp.writeInputJson ("")], Option.some e)
    | Except.ok js =>
        ({ c2 with inputJson := Option.some js, outputPkl := Option.some output },
         t2 ++ [CacheOp.writeInputJson js, CacheOp.writeOutputPkl output],
         Option.none)

/-- `self._work_dir`: a caller-supplied sticky directory (`Path`) or an
auto-created `TemporaryDirectory` (tagged by a creation counter, so distinct
creations are distinct directories). -/
inductive WD where
  | sticky (p : String)
  | temp (g : Nat)
deriving DecidableEq, Repr

/-- The per-instance mutable state of a `BaseTask` that `__call__` touches,
plus instrumentation: `bodyRuns` counts executions of the task body. -/
structure TaskState where
  /-- `self._output` (`PyVal.none` is Python `None`: not yet computed). -/
  output : PyVal := PyVal.none
  /-- `self._work_dir` (`none` after `__init__` without `work_dir`, or after
  a retry destroyed the transient directory). -/
  workDir : Option WD := Option.none
  /-- Fresh-names for `TemporaryDirectory()` creations. -/
  tempCtr : Nat := 0
  /-- Number of body executions so far (instrumentation, not program state). -/
  bodyRuns : Nat := 0
  /-- The cache entry under this task's fingerprint. -/
  cache : CacheEntry := {}

/-- The `work_dir` property: create a `TemporaryDirectory` when `_work_dir`
is `None`, else return the existing directory. -/
def workDirGet (s : TaskState) : WD × TaskState :=
  match s.workDir with
  | Option.some w => (w, s)
  | Option.none =>
      (WD.temp s.tempCtr,
       { s with workDir := Option.some (WD.temp s.tempCtr),
                tempCtr := s.tempCtr + 1 })

/-- `v is None` — Python identity test against the `None` singleton. -/
def isNone : PyVal → Bool
  | PyVal.none => true
  | _ => false

/-- What one execution of the task body does on a given attempt. -/
inductive BodyOutcome where
  /-- The body returns a value. -/
  | ok (v : PyVal)
  /-- The body raises `RetryTask`. -/
  | retryTask
  /-- The body raises any other exception (not caught by `__call__`). -/
  | fail

/-- The retry loop of `__call__` (`while retry_count < 3`), with
`remaining = 3 - retry_count` as the structural fuel and `attempt` the
current `retry_count`.  Each iteration materializes the work directory
(`_setup_workdir` / `work_dir`), runs the body once, and on `RetryTask`
destroys the work directory when it is a `TemporaryDirectory` (setting
`_work_dir` to `None`, so the next attempt creates a fresh one) while a
user-supplied `Path` is kept.  When the condition `retry_count < 3` fails the
`while`'s `else` raises `RuntimeError("Task failed after 3 retries")`.
Returns the state, the directory each attempt ran in, and the result. -/
def runAttempts (body : Nat → BodyOutcome) :
    Nat → Nat → TaskState → List WD → TaskState × List WD × Except PyErr PyVal
  | 0, _, s, dirs => (s, dirs, Except.error PyErr.retriesExhausted)
  | remaining + 1, attempt, s, dirs =>
      let (wd, s1) := workDirGet s
      let s2 := { s1 with bodyRuns := s1.bodyRuns + 1 }
      match body attempt with
      | BodyOutcome.ok v =>
          ({ s2 with output := v }, dirs ++ [wd], Except.ok v)
      | BodyOutcome.fail => (s2, dirs ++ [wd], Except.error PyErr.bodyException)
      | BodyOutcome.retryTask =>
          let s3 :=
            match wd with
            | WD.temp _ => { s2 with workDir := Option.none }
            | WD.sticky _ => s2
          runAttempts body remaining (attempt + 1) s3 (dirs ++ [wd])

/-- `BaseTask.__call__` for one task (upstream collection is empty here), from
acquiring the output lock to returning: return the memoized `self._output`
when it is not `None`; on a cache hit (`output.pkl` exists under the
fingerprint) unpickle it into `self._output` and return it without running
the body; otherwise run the retry loop, then `_cache_output()` and the
(unreachable when caching succeeded) output-validity re-check, and return the
output.  Also returns the work directory of each body attempt. -/
def callTask (body : Nat → BodyOutcome) (src : SourceCode) (input : PyVal)
    (s : TaskState) : TaskState × List WD × Except PyErr PyVal :=
  if ¬ isNone s.output then (s, [], Except.ok s.output)
  else
    match s.cache.outputPkl with
    | Option.some v => ({ s with output := v }, [], Except.ok v)
    | Option.none =>
        match runAttempts body 3 0 s [] with
        | (s1, dirs, Except.error e) => (s1, dirs, Except.error e)
        | (s1, dirs, Except.ok v) =>
            let (c2, _ops, err) := cacheOutput src input v s1.cache
            let s2 := { s1 with cache := c2 }
            match err with
            | Option.some e => (s2, dirs, Except.error e)
            | Option.none =>
                if ¬ isValidOutput v then (s2, dirs, Except.error PyErr.invalidOutput)
                else (s2, dirs, Except.ok v)

/-! ### Shared fixtures and instances for the claim theorems -/

deriving instance DecidableEq for Except

/-- A concrete task body (empty code object fields), shared by instances that
have "equal bodies". -/
def srcEmpty : SourceCode :=
  { coCode := "", coConsts := [], coVarnames := [], coNames := [] }

/-- `{"a": "0", "b": "1"}` built with insertion order `a`, `b`. -/
def inputAB : List (PyKey × PyVal) :=
  [(PyKey.str ("a"), PyVal.str ("0")), (PyKey.str ("b"), PyVal.str ("1"))]

/-- The same mapping built with insertion order `b`, `a`. -/
def inputBA : List (PyKey × PyVal) :=
  [(PyKey.str ("b"), PyVal.str ("1")), (PyKey.str ("a"), PyVal.str ("0"))]

/-! ### C6: escape rejection -/

/-- The early-return scan from running depth `d` accepts/rejects exactly as
the depth of some scanned prefix going negative, for `0 ≤ d`. -/
theorem isOutsideBaseAux_iff_take (ps : List String) : ∀ d : Int, 0 ≤ d →
    (isOutsideBaseAux d ps = true ↔
      ∃ k, List.foldl depthStep d (ps.take k) < 0) := by
  induction ps with
  | nil =>
      intro d hd
      simp only [isOutsideBaseAux, List.take_nil, List.foldl_nil]
      constructor
      · intro h; cases h
      · rintro ⟨k, hk⟩; omega
  | cons p ps ih =>
      intro d hd
      simp only [isOutsideBaseAux]
      by_cases h2 : depthStep d p < 0
      · simp only [if_pos h2, true_iff]
        exact ⟨1, by simpa using h2⟩
      · rw [if_neg h2, ih (depthStep d p) (by omega)]
        constructor
        · rintro ⟨k, hk⟩
          exact ⟨k + 1, by simpa using hk⟩
        · rintro ⟨k, hk⟩
          match k with
          | 0 => simp at hk; omega
          | j + 1 => exact ⟨j, by simpa using hk⟩

/-- Claim C6: constructing an artifact (`BaseEntry.__init__`) raises the
escape error if and only if the destination path (the given `dest`, else the
`path`) resolves net-upward: scanning its components and accumulating depth
(`.` contributes 0, `..` contributes −1, any other component +1), the running
depth becomes negative at some prefix.  In particular construction with a
non-escaping destination does not raise this error. -/
theorem C6_escape_rejection (path : List String) (copyArg : Bool)
    (dest : Option (List String)) :
    baseEntryInit path copyArg dest = Except.error ("File is outside base directory")
      ↔ ∃ k, partsDepth ((dest.getD path).take k) < 0 := by
  have hdest : (match dest with
      | some d => d
      | none => path) = dest.getD path := by cases dest <;> rfl
  rw [show partsDepth = fun ps => List.foldl depthStep 0 ps from rfl]
  constructor
  · intro h
    by_cases hout : isOutsideBase (dest.getD path)
    · exact (isOutsideBaseAux_iff_take (dest.getD path) 0 le_rfl).1 hout
    · exfalso
      unfold baseEntryInit at h
      rw [hdest, if_neg hout] at h
      cases h
  · intro h
    have hout : isOutsideBase (dest.getD path) = true :=
      (isOutsideBaseAux_iff_take (dest.getD path) 0 le_rfl).2 h
    unfold baseEntryInit
    rw [hdest, if_pos hout]

/-- Witness for C6 at a concrete escaping path. -/
theorem C6_escape_rejection_witness :
    baseEntryInit [".."] false Option.none =
        Except.error ("File is outside base directory")
      ↔ ∃ k, partsDepth (((Option.none : Option (List String)).getD [".."]).take k) < 0 :=
  C6_escape_rejection [".."] false Option.none

/-! ### C1: fingerprint vs. mapping order -/

/-- A key absent from a keyed list is not found. -/
theorem lookup_none_of_not_mem_keys (k : PyKey) :
    ∀ l : List (PyKey × PyVal), k ∉ l.map Prod.fst → List.lookup k l = Option.none := by
  intro l
  induction l with
  | nil => intro _; rfl
  | cons a t ih =>
      intro h
      simp only [List.map_cons, List.mem_cons] at h
      push_neg at h
      have hne : (k == a.1) = false := beq_eq_false_iff_ne.2 h.1
      simp only [List.lookup, hne]
      exact ih h.2

/-- Two keyed lists with the same key sequence, no duplicate keys, and the
same lookups are the same list. -/
theorem keyed_list_eq : ∀ l1 l2 : List (PyKey × PyVal),
    l1.map Prod.fst = l2.map Prod.fst →
    (l1.map Prod.fst).Nodup →
    (∀ k, List.lookup k l1 = List.lookup k l2) → l1 = l2 := by
  intro l1
  induction l1 with
  | nil =>
      intro l2 hk _ _
      cases l2 with
      | nil => rfl
      | cons b t2 => simp at hk
  | cons a t1 ih =>
      intro l2 hk hnd hv
      cases l2 with
      | nil => simp at hk
      | cons b t2 =>
          obtain ⟨k, v⟩ := a
          obtain ⟨k2, v2⟩ := b
          simp only [List.map_cons, List.cons.injEq] at hk
          obtain ⟨hk1, hkt⟩ := hk
          subst hk1
          have hv1 := hv k
          simp only [List.lookup, beq_self_eq_true] at hv1
          have hvv : v = v2 := by simpa using hv1
          subst hvv
          rw [List.map_cons] at hnd
          have hnd' := List.nodup_cons.1 hnd
          have htl : ∀ k', List.lookup k' t1 = List.lookup k' t2 := by
            intro k'
            by_cases hkk : k' = k
            · subst hkk
              rw [lookup_none_of_not_mem_keys k' t1 hnd'.1,
                lookup_none_of_not_mem_keys k' t2 (hkt ▸ hnd'.1)]
            · have hne : (k' == k) = false := beq_eq_false_iff_ne.2 hkk
              have h2 := hv k'
              simp only [List.lookup, hne] at h2
              exact h2
          rw [ih t2 hkt hnd'.2 htl]

/-- Claim C1 (amended): the canonical input preserves the mapping's key
insertion order (`json.dumps` is called without `sort_keys`, so keys are not
sorted before hashing); hence the fingerprint is deterministic with respect
to the ordered input — two task instances with equal bodies, equal names, and
inputs equal as *ordered* string-keyed mappings (the same key sequence, equal
value at every key) have equal fingerprints — while inputs equal merely as
unordered mappings can canonicalize to different texts (see the
counterexample). -/
theorem C1_fingerprint_ordered_determinism (xxh128hex : String → String)
    (src : SourceCode) (name : String) (i1 i2 : List (PyKey × PyVal))
    (hkeys : i1.map Prod.fst = i2.map Prod.fst)
    (hnd : (i1.map Prod.fst).Nodup)
    (hvals : ∀ k, List.lookup k i1 = List.lookup k i2) :
    calculateHash xxh128hex src (PyVal.dict i1) name =
      calculateHash xxh128hex src (PyVal.dict i2) name := by
  rw [keyed_list_eq i1 i2 hkeys hnd hvals]

/-- Witness for the amended C1 at a concrete input. -/
theorem C1_fingerprint_ordered_determinism_witness :
    calculateHash (fun s => s) srcEmpty (PyVal.dict inputAB) "Task" =
      calculateHash (fun s => s) srcEmpty (PyVal.dict inputAB) "Task" :=
  C1_fingerprint_ordered_determinism (fun s => s) srcEmpty ("Task") inputAB inputAB
    rfl (by decide) (fun _ => rfl)

/-- Claim C1 counterexample: `inputAB` and `inputBA` are equal as string-keyed
mappings — the same keys (as a permutation) and the same value at every key —
and the task bodies are identical, yet the canonical inputs (the exact texts
`_calculate_hash` feeds to `xxh128`) differ: the keys come out in insertion
order, not sorted, so the claimed order-independence of the fingerprint fails. -/
theorem C1_counterexample :
    ((inputAB.map Prod.fst).Perm (inputBA.map Prod.fst)
      ∧ List.lookup (PyKey.str ("a")) inputAB = List.lookup (PyKey.str ("a")) inputBA
      ∧ List.lookup (PyKey.str ("b")) inputAB = List.lookup (PyKey.str ("b")) inputBA)
    ∧ dumpInput srcEmpty (PyVal.dict inputAB) "" =
        Except.ok ("\x7b\n\"a\": \"0\",\n\"b\": \"1\",\n\"__lazypp_task_source__\": \x7b\n\"co_code\": \"\",\n\"co_consts\": [],\n\"co_varnames\": [],\n\"co_names\": []\n\x7d\n\x7d")
    ∧ dumpInput srcEmpty (PyVal.dict inputBA) "" =
        Except.ok ("\x7b\n\"b\": \"1\",\n\"a\": \"0\",\n\"__lazypp_task_source__\": \x7b\n\"co_code\": \"\",\n\"co_consts\": [],\n\"co_varnames\": [],\n\"co_names\": []\n\x7d\n\x7d")
    ∧ ("\x7b\n\"a\": \"0\",\n\"b\": \"1\",\n\"__lazypp_task_source__\": \x7b\n\"co_code\": \"\",\n\"co_consts\": [],\n\"co_varnames\": [],\n\"co_names\": []\n\x7d\n\x7d" : String)
      ≠ "\x7b\n\"b\": \"1\",\n\"a\": \"0\",\n\"__lazypp_task_source__\": \x7b\n\"co_code\": \"\",\n\"co_consts\": [],\n\"co_varnames\": [],\n\"co_names\": []\n\x7d\n\x7d" := by
  refine ⟨⟨by decide, rfl, rfl⟩, ?_, ?_, by decide⟩
  · simp [dumpInput, isValidInput, isStrKey, dictSet, srcKey, sourceCodeVal, inputAB, srcEmpty,
      hasEntryDict, hasEntry, hasEntryList, replTasksDict, replTasks, replTasksList,
      jsonVal, jsonEntries, jsonItems, encStr, escChar, pyKeyStr, nlInd, itemSep, repeatStr]
    decide
  · simp [dumpInput, isValidInput, isStrKey, dictSet, srcKey, sourceCodeVal, inputBA, srcEmpty,
      hasEntryDict, hasEntry, hasEntryList, replTasksDict, replTasks, replTasksList,
      jsonVal, jsonEntries, jsonItems, encStr, escChar, pyKeyStr, nlInd, itemSep, repeatStr]
    decide

/-! ### C2: artifact content hashing in the canonical input -/

/-- Reassembling the chunks of a byte list gives the byte list back
(the streamed reads concatenate to the file's bytes). -/
theorem byteChunksGo_flatten (n : Nat) (hn : 0 < n) : ∀ (fuel : Nat) (bs : List Nat),
    bs.length ≤ fuel → (byteChunksGo n fuel bs).flatten = bs := by
  intro fuel
  induction fuel with
  | zero =>
      intro bs h
      cases bs with
      | nil => rfl
      | cons b t => simp at h
  | succ f ih =>
      intro bs h
      cases bs with
      | nil => rfl
      | cons b t =>
          have hlen : ((b :: t).drop n).length ≤ f := by
            simp only [List.length_drop, List.length_cons]
            simp only [List.length_cons] at h
            omega
          simp only [byteChunksGo, List.flatten_cons]
          rw [ih _ hlen, List.take_append_drop]

/-- `flatten (byteChunks n bs) = bs` for positive chunk size. -/
theorem byteChunks_flatten (n : Nat) (hn : 0 < n) (bs : List Nat) :
    (byteChunks n bs).flatten = bs :=
  byteChunksGo_flatten n hn bs.length bs le_rfl

/-- The chunked file hash is the digest of the file's whole byte stream. -/
theorem fileMd5Hex_eq_md5Hex (bs : List Nat) : fileMd5Hex bs = md5Hex bs := by
  rw [fileMd5Hex, byteChunks_flatten 4096 (by omega)]

/-- A concrete file artifact with destination `a.txt`. -/
def fileEntryA : EntryObj :=
  { srcPath := ["a.txt"], destPath := ["a.txt"], copyFlag := false }

/-- Claim C2, evaluated at the failing input: an input containing a file
artifact makes `_dump_input` raise `AttributeError` — the entry-replacement
pass calls `entry._xxh128_hash()`, a method no `BaseEntry` subclass defines —
instead of embedding the artifact's content-hash hex digest; meanwhile
`File._md5_hash` itself is indeed the 128-bit MD5 digest of the bytes
streamed in 4 KiB chunks (here of the one-byte file `b"A"`). -/
theorem C2_artifact_hash_attribute_error :
    dumpInput srcEmpty (PyVal.dict [(PyKey.str ("f"), PyVal.entry fileEntryA)]) "" =
      Except.error PyErr.attributeError
    ∧ fileMd5Hex [65] = md5Hex [65]
    ∧ md5Hex [65] = "7fc56270e7a70fa81a5935b72eacbe29" := by
  refine ⟨?_, fileMd5Hex_eq_md5Hex [65], by decide⟩
  simp [dumpInput, isValidInput, isStrKey, dictSet, srcKey, sourceCodeVal, srcEmpty,
    hasEntryDict, hasEntry, hasEntryList]

/-! ### C7: directory content hash and walk order -/

mutual
/-- The byte stream the specification's (amended) description reads off: at
each directory, first the bytes of its regular files in enumeration order,
then its subdirectories' streams recursively, in enumeration order — the
`os.walk` (top-down) order. -/
def preBytes (ns : List FsNode) : List Nat :=
  (levelFileContents ns).flatten ++ preBytesSub ns

/-- The streams of the subdirectories at one level, concatenated. -/
def preBytesSub : List FsNode → List Nat
  | [] => []
  | FsNode.file _ _ :: rest => preBytesSub rest
  | FsNode.dir _ cs :: rest => preBytes cs ++ preBytesSub rest
end

/-- The walk's doubly-flattened content stream is the preorder stream. -/
theorem walk_stream_eq_preBytes : ∀ ns : List FsNode,
    ((osWalk ns).flatten).flatten = preBytes ns := by
  refine osWalk.induct
    (fun ns => ((osWalk ns).flatten).flatten = preBytes ns)
    (fun ns => ((osWalkSubdirs ns).flatten).flatten = preBytesSub ns)
    ?_ ?_ ?_ ?_
  · intro children h2
    simp only [osWalk, List.flatten_cons, List.flatten_append, preBytes]
    rw [h2]
  · simp only [osWalkSubdirs, List.flatten_nil, preBytesSub]
  · intro nm c rest h2
    simpa only [osWalkSubdirs, preBytesSub] using h2
  · intro nm cs rest h1 h2
    simp only [osWalkSubdirs, preBytesSub, List.flatten_append]
    rw [← h1, ← h2]

/-- Claim C7 (amended): the content hash of a directory artifact is the MD5
digest of the concatenated byte streams of the regular files under its root
visited in `os.walk` top-down order — at each directory its files first, in
the filesystem's enumeration order, then its subdirectories recursively, in
enumeration order.  It is therefore a function of that enumerated stream
(deterministic for a fixed enumeration order), but it is not independent of
the enumeration order (see the counterexample). -/
theorem C7_dir_hash_walk_order (ns a b : List FsNode)
    (h : preBytes a = preBytes b) :
    dirMd5Hex ns = md5Hex (preBytes ns) ∧ dirMd5Hex a = dirMd5Hex b := by
  have key : ∀ t : List FsNode, dirMd5Hex t = md5Hex (preBytes t) := by
    intro t
    rw [dirMd5Hex]
    rw [List.map_congr_left (fun c _ => byteChunks_flatten 4096 (by omega) c),
      show (fun c : List Nat => c) = id from rfl, List.map_id, walk_stream_eq_preBytes]
  exact ⟨key ns, by rw [key a, key b, h]⟩

/-- A source tree whose enumeration order is alphabetical, for which the walk
order (root files first) still differs from lexicographic-by-relative-path:
`z.txt` holds `b"A"`, `a/x.txt` holds `b"B"`. -/
def treeZA : List FsNode :=
  [FsNode.file ("z.txt") [65], FsNode.dir ("a") [FsNode.file ("x.txt") [66]]]

/-- Two files enumerated in order `a.txt`, `b.txt`. -/
def treeAB1 : List FsNode :=
  [FsNode.file ("a.txt") [65], FsNode.file ("b.txt") [66]]

/-- The same two files enumerated in the opposite order. -/
def treeAB2 : List FsNode :=
  [FsNode.file ("b.txt") [66], FsNode.file ("a.txt") [65]]

/-- Claim C7 counterexample: the directory hash is not the digest of the
lexicographic-by-relative-path concatenation (on `treeZA` the walk emits the
root file `z.txt` before `a/x.txt` although `"a/x.txt" < "z.txt"`), and it is
not independent of the filesystem's enumeration order: `treeAB1` and
`treeAB2` hold exactly the same relative-path → content mapping, yet hash
differently. -/
theorem C7_counterexample :
    dirMd5Hex treeZA ≠ specLexDirHash treeZA
    ∧ (lexFilesAux ("") treeAB1).Perm (lexFilesAux ("") treeAB2)
    ∧ dirMd5Hex treeAB1 ≠ dirMd5Hex treeAB2 := by
  refine ⟨?_, ?_, ?_⟩
  · simp [dirMd5Hex, specLexDirHash, treeZA, osWalk, osWalkSubdirs, levelFileContents,
      lexFilesAux, List.insertionSort, List.orderedInsert, byteChunks, byteChunksGo]
    decide
  · simp only [treeAB1, treeAB2, lexFilesAux]
    decide
  · simp [dirMd5Hex, treeAB1, treeAB2, osWalk, osWalkSubdirs, levelFileContents,
      byteChunks, byteChunksGo]
    decide

/-- Witness for the amended C7 at a concrete tree. -/
theorem C7_dir_hash_walk_order_witness :
    dirMd5Hex treeZA = md5Hex (preBytes treeZA)
    ∧ dirMd5Hex treeAB1 = dirMd5Hex treeAB1 :=
  C7_dir_hash_walk_order treeZA treeAB1 treeAB1 rfl

/-! ### C3: cache store protocol -/

/-- Claim C3: storing a task's output follows this exact protocol: when the
output is neither `None` nor a string-keyed dictionary, `_cache_output`
raises the invalid-output error before creating or modifying any file of the
cache entry (the state is unchanged and the operation trace is empty);
otherwise the stale `output.pkl` (when present) is removed first, the entry
directory is created, every artifact reachable from the output is archived,
`input.json` is written, and `output.pkl` is written last — so `output.pkl`'s
presence is the commit marker. -/
theorem C3_cache_store_protocol (src : SourceCode) (input output : PyVal)
    (c : CacheEntry) :
    (isValidOutput output = false →
        cacheOutput src input output c = (c, [], Option.some PyErr.invalidOutput))
    ∧ (∀ js, isValidOutput output = true →
        dumpInput src input ("    ") = Except.ok js →
        cacheOutput src input output c =
          ({ outputPkl := Option.some output,
             inputJson := Option.some js,
             blobs := c.blobs ++ collectEntries output },
           (if c.outputPkl.isSome then [CacheOp.removeOutputPkl] else []) ++
             [CacheOp.makeEntryDir] ++
             (collectEntries output).map CacheOp.archiveEntry ++
             [CacheOp.writeInputJson js, CacheOp.writeOutputPkl output],
           Option.none)) := by
  constructor
  · intro h
    simp [cacheOutput, h]
  · intro js hval hdump
    simp [cacheOutput, hval, hdump]

/-- Witness for C3 at concrete outputs: an integer output is rejected with
the entry untouched; the empty-dictionary output commits with `output.pkl`
written last. -/
theorem C3_cache_store_protocol_witness :
    cacheOutput srcEmpty PyVal.none (PyVal.int 3) {} =
      ({}, [], Option.some PyErr.invalidOutput)
    ∧ cacheOutput srcEmpty PyVal.none (PyVal.dict []) {} =
      ({ outputPkl := Option.some (PyVal.dict []),
         inputJson := Option.some ("\x7b\"__lazypp_task_source__\": \x7b\"co_code\": \"\", \"co_consts\": [], \"co_varnames\": [], \"co_names\": []\x7d\x7d"),
         blobs := [] },
       [CacheOp.makeEntryDir,
        CacheOp.writeInputJson ("\x7b\"__lazypp_task_source__\": \x7b\"co_code\": \"\", \"co_consts\": [], \"co_varnames\": [], \"co_names\": []\x7d\x7d"),
        CacheOp.writeOutputPkl (PyVal.dict [])],
       Option.none) := by
  have hdump : dumpInput srcEmpty PyVal.none ("    ") =
      Except.ok ("\x7b\"__lazypp_task_source__\": \x7b\"co_code\": \"\", \"co_consts\": [], \"co_varnames\": [], \"co_names\": []\x7d\x7d") := by
    simp [dumpInput, isValidInput, srcKey, sourceCodeVal, srcEmpty,
      jsonVal, jsonEntries, jsonItems, encStr, escChar, pyKeyStr, nlInd, itemSep, repeatStr]
    decide
  constructor
  · exact (C3_cache_store_protocol srcEmpty PyVal.none (PyVal.int 3) {}).1 rfl
  · have h := (C3_cache_store_protocol srcEmpty PyVal.none (PyVal.dict []) {}).2
      ("\x7b\"__lazypp_task_source__\": \x7b\"co_code\": \"\", \"co_consts\": [], \"co_varnames\": [], \"co_names\": []\x7d\x7d")
      rfl hdump
    simpa [collectEntries, collectEntriesDict] using h

/-! ### C4: cache idempotence -/

/-- A successful retry loop leaves `self._output` set to the value the body
returned. -/
theorem runAttempts_ok_output (body : Nat → BodyOutcome) :
    ∀ (rem att : Nat) (s : TaskState) (dirs d1 : List WD) (s1 : TaskState) (v : PyVal),
      runAttempts body rem att s dirs = (s1, d1, Except.ok v) → s1.output = v := by
  intro rem
  induction rem with
  | zero =>
      intro att s dirs d1 s1 v h
      simp [runAttempts] at h
  | succ r ih =>
      intro att s dirs d1 s1 v h
      rw [runAttempts] at h
      cases hb : body att with
      | ok w =>
          rw [hb] at h
          simp only [Prod.mk.injEq, Except.ok.injEq] at h
          obtain ⟨h1, _, h3⟩ := h
          rw [← h1, h3]
      | fail =>
          rw [hb] at h
          simp at h
      | retryTask =>
          rw [hb] at h
          exact ih _ _ _ _ _ _ h

/-- A `_cache_output` run that raises nothing has written the output as
`output.pkl`. -/
theorem cacheOutput_committed (src : SourceCode) (input output : PyVal)
    (c c2 : CacheEntry) (ops : List CacheOp) :
    cacheOutput src input output c = (c2, ops, Option.none) →
      c2.outputPkl = Option.some output := by
  intro h
  unfold cacheOutput at h
  split at h
  · simp at h
  · split at h
    · simp at h
    · simp only [Prod.mk.injEq] at h
      rw [← h.1]

/-- A successful `__call__` leaves `self._output` set to the returned value,
and — when that value is Python `None` — a committed `output.pkl` holding it. -/
theorem callTask_ok_post (body : Nat → BodyOutcome) (src : SourceCode)
    (input : PyVal) (s s1 : TaskState) (dirs : List WD) (v : PyVal)
    (h : callTask body src input s = (s1, dirs, Except.ok v)) :
    s1.output = v ∧ (isNone v = true → s1.cache.outputPkl = Option.some v) := by
  unfold callTask at h
  split at h
  · rename_i hguard
    simp only [Prod.mk.injEq, Except.ok.injEq] at h
    obtain ⟨rfl, _, hv⟩ := h
    rw [← hv]
    exact ⟨rfl, fun hnone => absurd hnone hguard⟩
  · split at h
    · rename_i w hw
      simp only [Prod.mk.injEq, Except.ok.injEq] at h
      obtain ⟨rfl, _, hv⟩ := h
      exact ⟨by rw [← hv], fun _ => by rw [hw, hv]⟩
    · rename_i hw
      split at h
      · simp at h
      · rename_i s1' dirs' v' hrun
        split at h
        rename_i c2 ops err hco
        split at h
        · simp at h
        · split at h
          · simp at h
          · simp only [Prod.mk.injEq, Except.ok.injEq] at h
            obtain ⟨hs1, _, hv⟩ := h
            have hout := runAttempts_ok_output body 3 0 s [] dirs' s1' v' hrun
            constructor
            · rw [← hs1, ← hv]
              simpa using hout
            · intro _
              rw [← hs1, ← hv]
              simpa using cacheOutput_committed src input v' s1'.cache c2 ops hco

/-- Claim C4: a cache hit (`output.pkl` exists under the task's fingerprint)
returns the value unpickled from `output.pkl` without executing the task
body (no attempt runs, `bodyRuns` is unchanged); and a second invocation of
an instance whose first invocation succeeded returns the same output again
with no body execution and no attempt. -/
theorem C4_cache_idempotence (body body2 : Nat → BodyOutcome) (src : SourceCode)
    (input : PyVal) (s s1 : TaskState) (v : PyVal) (dirs : List WD) :
    (∀ w, s.output = PyVal.none → s.cache.outputPkl = Option.some w →
        callTask body src input s = ({ s with output := w }, [], Except.ok w))
    ∧ (callTask body src input s = (s1, dirs, Except.ok v) →
        ∃ s2, callTask body2 src input s1 = (s2, [], Except.ok v)
          ∧ s2.bodyRuns = s1.bodyRuns ∧ s2.output = v) := by
  constructor
  · intro w h1 h2
    unfold callTask
    rw [h1]
    simp [isNone, h2]
  · intro h
    obtain ⟨hout, hcache⟩ := callTask_ok_post body src input s s1 dirs v h
    by_cases hn : isNone v = true
    · have hv : v = PyVal.none := by cases v <;> simp [isNone] at hn ⊢
      subst hv
      refine ⟨{ s1 with output := PyVal.none }, ?_, rfl, rfl⟩
      unfold callTask
      simp [isNone, hout, hcache hn]
    · have hfalse : isNone v = false := by simpa using hn
      refine ⟨s1, ?_, rfl, hout⟩
      unfold callTask
      simp [hout, hfalse]

/-- A body that always raises (never used in the witness run). -/
def bodyNever : Nat → BodyOutcome := fun _ => BodyOutcome.fail

/-- A fresh task instance whose fingerprint's cache entry holds `7`. -/
def stateHit : TaskState := { cache := { outputPkl := Option.some (PyVal.int 7) } }

/-- Witness for C4: the cached `7` is returned, the body never runs, no
attempt happens, `bodyRuns` stays. -/
theorem C4_cache_idempotence_witness :
    callTask bodyNever srcEmpty PyVal.none stateHit =
      ({ stateHit with output := PyVal.int 7 }, [], Except.ok (PyVal.int 7)) :=
  (C4_cache_idempotence bodyNever bodyNever srcEmpty PyVal.none stateHit stateHit
    (PyVal.int 7) []).1 (PyVal.int 7) rfl rfl

/-! ### C5: retry protocol -/

/-- A body that raises `RetryTask` on the first `k` attempts, then returns `v`. -/
def retryThen (k : Nat) (v : PyVal) : Nat → BodyOutcome :=
  fun i => if i < k then BodyOutcome.retryTask else BodyOutcome.ok v

/-- A body that raises `RetryTask` on every attempt. -/
def alwaysRetry : Nat → BodyOutcome := fun _ => BodyOutcome.retryTask

/-- A task instance that has not run: no output, the given work directory
(`none` = transient, auto-created on first use), temp-name counter `c0`, and
the given cache entry. -/
def freshState (w : Option WD) (c0 : Nat) (cE : CacheEntry) : TaskState :=
  { output := PyVal.none, workDir := w, tempCtr := c0, bodyRuns := 0, cache := cE }

/-- Claim C5: on a cache miss, a body that raises `RetryTask` on `k < 3`
attempts and then returns `v` makes the invocation return `v` (after `k + 1`
body runs, each transient attempt in a fresh `TemporaryDirectory`); a body
that raises `RetryTask` on each of the three attempts makes the invocation
fail with the retries-exhausted error (`RuntimeError("Task failed after 3
retries")`).  Between attempts the transient work directory is destroyed and
recreated — the three attempts run in three distinct temporary directories
and the destroyed one is not kept in the state — while a user-supplied sticky
work directory is kept: all attempts run in it and it stays set. -/
theorem C5_retry_protocol (k c0 : Nat) (p : String) (v : PyVal)
    (src : SourceCode) (input : PyVal) (cE : CacheEntry) (js : String)
    (hk : k < 3) (hv : isValidOutput v = true)
    (hdump : dumpInput src input ("    ") = Except.ok js)
    (hmiss : cE.outputPkl = Option.none) :
    (callTask (retryThen k v) src input (freshState Option.none c0 cE)
        = ({ output := v, workDir := Option.some (WD.temp (c0 + k)),
             tempCtr := c0 + k + 1, bodyRuns := k + 1,
             cache := { outputPkl := Option.some v, inputJson := Option.some js,
                        blobs := cE.blobs ++ collectEntries v } },
           (List.range (k + 1)).map (fun i => WD.temp (c0 + i)), Except.ok v))
    ∧ (callTask alwaysRetry src input (freshState Option.none c0 cE)
        = ({ output := PyVal.none, workDir := Option.none, tempCtr := c0 + 3,
             bodyRuns := 3, cache := cE },
           [WD.temp c0, WD.temp (c0 + 1), WD.temp (c0 + 2)],
           Except.error PyErr.retriesExhausted))
    ∧ (callTask alwaysRetry src input (freshState (Option.some (WD.sticky p)) c0 cE)
        = ({ output := PyVal.none, workDir := Option.some (WD.sticky p),
             tempCtr := c0, bodyRuns := 3, cache := cE },
           [WD.sticky p, WD.sticky p, WD.sticky p],
           Except.error PyErr.retriesExhausted)) := by
  refine ⟨?_, ?_, ?_⟩
  · interval_cases k
    · simp [callTask, runAttempts, workDirGet, freshState, isNone, hmiss,
        retryThen, cacheOutput, hv, hdump, List.range_succ]
    · simp [callTask, runAttempts, workDirGet, freshState, isNone, hmiss,
        retryThen, cacheOutput, hv, hdump, List.range_succ, Nat.add_assoc]
    · simp [callTask, runAttempts, workDirGet, freshState, isNone, hmiss,
        retryThen, cacheOutput, hv, hdump, List.range_succ, Nat.add_assoc]
  · simp [callTask, runAttempts, workDirGet, freshState, isNone, hmiss,
      alwaysRetry, Nat.add_assoc]
  · simp [callTask, runAttempts, workDirGet, freshState, isNone, hmiss,
      alwaysRetry]

/-- Witness for C5: one `RetryTask` then success returns the value after two
attempts in two distinct fresh temporary directories. -/
theorem C5_retry_protocol_witness :
    callTask (retryThen 1 (PyVal.dict [])) srcEmpty PyVal.none (freshState Option.none 0 {})
      = ({ output := PyVal.dict [], workDir := Option.some (WD.temp (0 + 1)),
           tempCtr := 0 + 1 + 1, bodyRuns := 1 + 1,
           cache := { outputPkl := Option.some (PyVal.dict []),
                      inputJson := Option.some ("\x7b\"__lazypp_task_source__\": \x7b\"co_code\": \"\", \"co_consts\": [], \"co_varnames\": [], \"co_names\": []\x7d\x7d"),
                      blobs := [] ++ collectEntries (PyVal.dict []) } },
         (List.range (1 + 1)).map (fun i => WD.temp (0 + i)),
         Except.ok (PyVal.dict [])) := by
  have hdump : dumpInput srcEmpty PyVal.none ("    ") =
      Except.ok ("\x7b\"__lazypp_task_source__\": \x7b\"co_code\": \"\", \"co_consts\": [], \"co_varnames\": [], \"co_names\": []\x7d\x7d") := by
    simp [dumpInput, isValidInput, srcKey, sourceCodeVal, srcEmpty,
      jsonVal, jsonEntries, jsonItems, encStr, escChar, pyKeyStr, nlInd, itemSep, repeatStr]
    decide
  exact (C5_retry_protocol 1 0 ("w") (PyVal.dict []) srcEmpty PyVal.none {}
    ("\x7b\"__lazypp_task_source__\": \x7b\"co_code\": \"\", \"co_consts\": [], \"co_varnames\": [], \"co_names\": []\x7d\x7d")
    (by decide) rfl hdump rfl).1

end LazyPP
